import Mathlib

/-!
Shallow embedding of the `transkribus_rest_api` Python client
(files `api.py`, `types.py`, `utils.py`) and proofs about the
spec's testable properties.

Modelling conventions:
* Time is `Nat` (seconds); `datetime.now()` values are passed explicitly.
  `timedelta(hours=12)` is `twelveHours`.
* Network traffic is an explicit environment: each request's response is a
  record with an HTTP status and a pre-decoded body.  `raise_for_status`
  becomes a check of `ok2xx`; a failing check produces `Err.httpError`.
* XML parsing (`utils.parse_xml`) is modelled by `Option`: `none` is a body
  `lxml` fails to parse (`Err.parseError`); `some` carries the decoded
  content relevant to the caller (e.g. the `//sessionId/text()` node list).
* Python exceptions become the `Err` inductive; `[0]` on an empty xpath
  result list is `Err.indexError`, `int()` on a non-numeric string is
  `Err.valueError`, and exceeding the interpreter recursion limit in an
  unbounded mutual recursion is `Err.recursionLimit` (modelled by a fuel
  parameter: no fuel bound suffices).
* In-place mutation of `self` becomes explicit state passing: a method that
  mutates the session returns the new `SessionId` value.
-/

namespace Transkribus

/-- Python exceptions that the client code can raise. -/
inductive Err
  | recursionLimit
  | httpError (status : Nat)
  | parseError
  | indexError
  | valueError
  deriving DecidableEq, Repr

/-- Predicate behind `requests.Response.raise_for_status`: it raises unless the status is 2xx. -/
def ok2xx (s : Nat) : Bool := decide (200 ≤ s ∧ s < 300)

/-- Seconds in `timedelta(hours=12)`. -/
def twelveHours : Nat := 12 * 60 * 60

/-- Model of `TranskribusRestApi.SessionId`: the token and its client-side expiry. -/
structure SessionId where
  session_id : String
  expires : Nat
  deriving DecidableEq, Repr

/-- Model of `SessionId.is_expired`: `datetime.now() > self.expires` (strict). -/
def is_expired (now : Nat) (s : SessionId) : Bool := decide (s.expires < now)

/-- Response of the `auth/refresh` endpoint: HTTP status, the parse result of
the body (`none` = unparseable; `some l` = the `//sessionId/text()` list), and
the `datetime.now()` observed after parsing (line 85 of `api.py`). -/
structure RefreshEnv where
  status : Nat
  parsed : Option (List String)
  respTime : Nat

mutual

/-- Model of `SessionId.get_auth_header`: calls `self.refresh()` and then returns the
cookie header built from the (possibly updated) token.  The fuel argument
bounds the mutual recursion with `refresh`; exhausting any fuel models the
Python `RecursionError`. -/
def get_auth_header : Nat → RefreshEnv → Nat → SessionId →
    Except Err ((String × String) × SessionId)
  | 0, _, _, _ => .error .recursionLimit
  | Nat.succ fuel, env, now, s =>
    match refresh fuel env now false s with
    | .error e => .error e
    | .ok (_, s1) => .ok (("Cookie", "JSESSIONID=" ++ s1.session_id), s1)

/-- Model of `SessionId.refresh`: when forced or expired, POSTs to `auth/refresh`
with headers built by `self.get_auth_header()` (the source of the mutual
recursion), checks the status, parses the body, and replaces token and
expiry; otherwise returns `False` leaving the session untouched. -/
def refresh : Nat → RefreshEnv → Nat → Bool → SessionId →
    Except Err (Bool × SessionId)
  | 0, _, _, _, _ => .error .recursionLimit
  | Nat.succ fuel, env, now, force, s =>
    if force || is_expired now s then
      match get_auth_header fuel env now s with
      | .error e => .error e
      | .ok (_hdr, _s1) =>
        if ok2xx env.status then
          match env.parsed with
          | none => .error .parseError
          | some [] => .error .indexError
          | some (sid :: _) =>
            .ok (true, { session_id := sid, expires := env.respTime + twelveHours })
        else .error (.httpError env.status)
    else .ok (false, s)

end

/-- Response of the `auth/login` endpoint: HTTP status and the parse result
of the body (`none` = unparseable; `some l` = the `//sessionId/text()`
list). -/
structure LoginEnv where
  status : Nat
  parsed : Option (List String)

/-- Model of `SessionId.login`: POSTs the credentials, checks the status, records
`now`, parses the body and builds a session expiring `now + 12h`.  The
credential arguments only feed the request body, which the environment
already answers. -/
def login (_username _password : String) (env : LoginEnv) (now : Nat) :
    Except Err SessionId :=
  if ok2xx env.status then
    match env.parsed with
    | none => .error .parseError
    | some [] => .error .indexError
    | some (sid :: _) => .ok { session_id := sid, expires := now + twelveHours }
  else .error (.httpError env.status)

/-- Model of `SessionId.logout`: builds headers via `get_auth_header`, POSTs to
`auth/logout`, checks the status, then clears the token and sets the expiry
to the `datetime.now()` of line 101 (`logoutTime`). -/
def logout (fuel : Nat) (renv : RefreshEnv) (status : Nat) (logoutTime : Nat)
    (now : Nat) (s : SessionId) : Except Err (Bool × SessionId) :=
  match get_auth_header fuel renv now s with
  | .error e => .error e
  | .ok (_hdr, _s1) =>
    if ok2xx status then .ok (true, { session_id := "", expires := logoutTime })
    else .error (.httpError status)

/-- Model of `pathlib.Path`, as its list of components. -/
abbrev Path := List String

/-- Model of `Path.name`: the final path component. -/
def Path.name (p : Path) : String := p.getLastD ""

/-- Model of `types.UploadPage`: the frozen dataclass after `__init__` has run.
`image_md5` is always a string afterwards (explicit or computed);
`page_xml_md5` stays `None` only when no transcript path was given. -/
structure UploadPage where
  image : Path
  page_xml : Option Path
  page_nr : Int
  image_md5 : String
  page_xml_md5 : Option String
  deriving DecidableEq, Repr

/-- Model of `UploadPage.__init__`.  The local filesystem is `fs : Path → List Nat`
(file bytes) and `hashlib.md5(...).hexdigest()` is the parameter `md5`; a
`none` checksum argument makes the constructor hash the referenced file,
an explicit checksum is stored as given without touching the file. -/
def UploadPage.init (md5 : List Nat → String) (fs : Path → List Nat)
    (image : Path) (page_xml : Option Path) (page_nr : Int)
    (image_md5 page_xml_md5 : Option String) : UploadPage :=
  { image := image
    page_xml := page_xml
    page_nr := page_nr
    image_md5 :=
      match image_md5 with
      | none => md5 (fs image)
      | some c => c
    page_xml_md5 :=
      match page_xml_md5 with
      | none =>
        match page_xml with
        | some p => some (md5 (fs p))
        | none => none
      | some c => some c }

/-- Python `dict` as an association list with unique keys, in insertion
order.  `dictMerge l r` is `l | r`: keys of `l` in order (values taken from
`r` on collision), then the keys of `r` not in `l`. -/
def dictMerge (l r : List (String × String)) : List (String × String) :=
  l.map (fun kv =>
    match r.lookup kv.1 with
    | some v => (kv.1, v)
    | none => kv) ++
  r.filter (fun kv => (l.lookup kv.1).isNone)

/-- One element of the `pageList.pages` array of the structure-creation
payload built by `upload_document`. -/
structure PageEntry where
  fileName : String
  pageXmlName : Option String
  pageNr : Int
  imgChecksum : String
  pageXmlChecksum : Option String
  deriving DecidableEq, Repr

/-- The structure-creation payload (`data` in `upload_document`): the merged
metadata dict `md` and the page list. -/
structure UploadPayload where
  md : List (String × String)
  pages : List PageEntry
  deriving DecidableEq, Repr

/-- The `data` dict literal of `upload_document` (lines 470-489):
`md = {"title": title} | metadata` and one `PageEntry` per page in list
order. -/
def uploadPayload (title : String) (metadata : List (String × String))
    (pages : List UploadPage) : UploadPayload :=
  { md := dictMerge [("title", title)] metadata
    pages := pages.map (fun page =>
      { fileName := page.image.name
        pageXmlName := page.page_xml.map Path.name
        pageNr := page.page_nr
        imgChecksum := page.image_md5
        pageXmlChecksum := page.page_xml_md5 }) }

/-- A file-location pointer (`FLocat` element) of the manifest's `PAGEXML`
file group, reduced to the attributes the client touches. -/
structure FLocat where
  loctype : String
  otherloctype : Option String
  href : String
  deriving DecidableEq, Repr

/-- One entry of the page-list JSON used by `download_document`: its
`pageNr` and the `fileName`s of `tsList.transcripts`. -/
structure DocPage where
  pageNr : Int
  transcripts : List String
  deriving DecidableEq, Repr

/-- The HTTP requests the two orchestrators issue, with the arguments that
reach the wire.  `getTranscript`'s last argument is the `{pageId}` path
segment of `collections/{collectionId}/{documentId}/{pageId}/text`. -/
inductive Call
  | createUploadDocStructure (collectionId : Int) (payload : UploadPayload)
  | uploadPage (uploadId : Int) (imageName : String) (xmlName : Option String)
  | getStatus (uploadId : Int)
  | getJobById (jobId : Int)
  | getMets (collectionId documentId : Int)
  | getPages (collectionId documentId : Int)
  | getTranscript (collectionId documentId pageId : Int)
  deriving DecidableEq, Repr

/-- An HTTP response: status plus pre-decoded content. -/
structure HttpResp (α : Type) where
  status : Nat
  content : α

/-- Status JSON of `uploads/{id}`, reduced to the `jobId` field read by
`upload_document`. -/
structure StatusBody where
  jobId : Int

/-- Job JSON of `jobs/{id}`, reduced to the `docId` field read by
`upload_document`. -/
structure JobBody where
  docId : Int

/-- Responses for one `upload_document` run.  `createResp`'s content is the
parse result of the structure-creation response (`none` = unparseable,
`some l` = the `//uploadId/text()` list); `pushStatus i` is the status of
the `i`-th page-push PUT. -/
structure UploadEnv where
  createResp : HttpResp (Option (List String))
  pushStatus : Nat → Nat
  statusResp : HttpResp StatusBody
  jobResp : HttpResp JobBody

/-- Accumulates decimal digits; any non-digit character fails. -/
def digitsToNatAux (acc : Nat) : List Char → Option Nat
  | [] => some acc
  | c :: cs =>
    if 48 ≤ c.toNat ∧ c.toNat ≤ 57 then
      digitsToNatAux (acc * 10 + (c.toNat - 48)) cs
    else none

/-- Python `int(...)` on the decimal id strings the service returns:
an optional sign followed by at least one digit; anything else raises
`ValueError`. -/
def strToInt? (s : String) : Option Int :=
  match s.data with
  | [] => none
  | c :: cs =>
    if c = '-' then
      match cs with
      | [] => none
      | _ => (digitsToNatAux 0 cs).map (fun n => -(n : Int))
    else (digitsToNatAux 0 (c :: cs)).map (fun n => (n : Int))

/-- The page-push loop of `upload_document` (lines 494-495): one
`Uploads.upload_page` PUT per page, in list order, stopping at the first
non-2xx response.  Returns the calls issued and the outcome. -/
def pushPages (pushStatus : Nat → Nat) (uploadId : Int)
    (pages : List UploadPage) (i : Nat) : List Call × Except Err Unit :=
  match pages with
  | [] => ([], .ok ())
  | p :: rest =>
    let c := Call.uploadPage uploadId p.image.name (p.page_xml.map Path.name)
    if ok2xx (pushStatus i) then
      let r := pushPages pushStatus uploadId rest (i + 1)
      (c :: r.1, r.2)
    else ([c], .error (.httpError (pushStatus i)))

/-- Model of `TranskribusRestApi.upload_document` (lines 455-497).  Auth-header
attachment is elided: with a live session it contributes no call of its own
here and does not affect payloads or ordering.  Returns the calls issued,
in order, and the result (`docId` on success). -/
def upload_document (env : UploadEnv) (collection_id : Int) (title : String)
    (pages : List UploadPage) (metadata : List (String × String)) :
    List Call × Except Err Int :=
  let data := uploadPayload title metadata pages
  let c0 := Call.createUploadDocStructure collection_id data
  if ok2xx env.createResp.status then
    match env.createResp.content with
    | none => ([c0], .error .parseError)
    | some [] => ([c0], .error .indexError)
    | some (t :: _) =>
      match strToInt? t with
      | none => ([c0], .error .valueError)
      | some upload_id =>
        let pr := pushPages env.pushStatus upload_id pages 0
        match pr.2 with
        | .error e => (c0 :: pr.1, .error e)
        | .ok _ =>
          let c4 := Call.getStatus upload_id
          if ok2xx env.statusResp.status then
            let job_id := env.statusResp.content.jobId
            let c5 := Call.getJobById job_id
            if ok2xx env.jobResp.status then
              (c0 :: pr.1 ++ [c4, c5], .ok env.jobResp.content.docId)
            else (c0 :: pr.1 ++ [c4, c5], .error (.httpError env.jobResp.status))
          else (c0 :: pr.1 ++ [c4], .error (.httpError env.statusResp.status))
  else ([c0], .error (.httpError env.createResp.status))

/-- Contents written to the target directory.  The manifest's serialization
is modelled by the list of its (rewritten) `FLocat` pointers — the only part
of the tree the client changes; a transcript by its serialized text. -/
inductive FileContent
  | metsFile (pointers : List FLocat)
  | transcriptFile (xml : String)
  deriving DecidableEq, Repr

/-- Responses for one `download_document` run.  `metsResp`'s content is the
parse result of the mets response, reduced to the `FLocat` pointers of the
`PAGEXML` file group in document order; `pagesResp` is the page-list JSON;
`transcriptResp pid` answers `collections/../{pid}/text` (content `none` =
unparseable transcript). -/
structure DownloadEnv where
  metsResp : HttpResp (Option (List FLocat))
  pagesResp : HttpResp (List DocPage)
  transcriptResp : Int → HttpResp (Option String)

/-- The pointer-rewrite loop of `download_document` (lines 516-529): the
`i`-th pointer gets `LOCTYPE="OTHER"`, `OTHERLOCTYPE="FILE"` and
`href = pages[i]["tsList"]["transcripts"][0]["fileName"]`.  `pages[i]` out
of range, or an empty transcript list, raises `IndexError`. -/
def rewritePointers (pointers : List FLocat) (pages : List DocPage) :
    Except Err (List FLocat) :=
  match pointers, pages with
  | [], _ => .ok []
  | _ :: _, [] => .error .indexError
  | _e :: ps, pg :: pgs =>
    match pg.transcripts with
    | [] => .error .indexError
    | fn :: _ =>
      match rewritePointers ps pgs with
      | .error err => .error err
      | .ok rest =>
        .ok ({ loctype := "OTHER", otherloctype := some "FILE", href := fn } :: rest)

/-- The per-page loop of `download_document` (lines 535-549): fetch the
page's transcript using `page["pageNr"]` as the `{pageId}` segment, then
write it under the page's first transcript file name.  Returns the calls
issued, the files written, and the outcome. -/
def fetchPages (env : DownloadEnv) (collection_id document_id : Int)
    (pages : List DocPage) :
    List Call × List (String × FileContent) × Except Err Unit :=
  match pages with
  | [] => ([], [], .ok ())
  | pg :: rest =>
    let c := Call.getTranscript collection_id document_id pg.pageNr
    let r := env.transcriptResp pg.pageNr
    if ok2xx r.status then
      match r.content with
      | none => ([c], [], .error .parseError)
      | some xml =>
        match pg.transcripts with
        | [] => ([c], [], .error .indexError)
        | fn :: _ =>
          let rec_ := fetchPages env collection_id document_id rest
          (c :: rec_.1, (fn, .transcriptFile xml) :: rec_.2.1, rec_.2.2)
    else ([c], [], .error (.httpError r.status))

/-- Model of `TranskribusRestApi.download_document` (lines 499-549): GET the mets,
GET the page list, rewrite the pointers, write `mets.xml`, then fetch and
write each page's transcript.  Returns the calls issued, the files written
(in write order, name with content), and the outcome. -/
def download_document (env : DownloadEnv) (collection_id document_id : Int) :
    List Call × List (String × FileContent) × Except Err Unit :=
  let c0 := Call.getMets collection_id document_id
  if ok2xx env.metsResp.status then
    match env.metsResp.content with
    | none => ([c0], [], .error .parseError)
    | some pointers =>
      let c1 := Call.getPages collection_id document_id
      if ok2xx env.pagesResp.status then
        let pages := env.pagesResp.content
        match rewritePointers pointers pages with
        | .error e => ([c0, c1], [], .error e)
        | .ok rp =>
          let r := fetchPages env collection_id document_id pages
          ([c0, c1] ++ r.1, ("mets.xml", FileContent.metsFile rp) :: r.2.1, r.2.2)
      else ([c0, c1], [], .error (.httpError env.pagesResp.status))
  else ([c0], [], .error (.httpError env.metsResp.status))

/-!  Concrete fixtures used by the theorems below. -/

/-- A page of image `a.jpg` with page number 1. -/
def pgA : UploadPage := ⟨["a.jpg"], none, 1, "ha", none⟩

/-- A page of image `b.jpg` with page number 2. -/
def pgB : UploadPage := ⟨["b.jpg"], none, 2, "hb", none⟩

/-- A page of image `c.jpg` with page number 3. -/
def pgC : UploadPage := ⟨["c.jpg"], none, 3, "hc", none⟩

/-- An all-successful upload environment: upload id 8, job id 3, doc id 9. -/
def uploadEnvOk : UploadEnv := ⟨⟨200, some ["8"]⟩, fun _ => 200, ⟨200, ⟨3⟩⟩, ⟨200, ⟨9⟩⟩⟩

/-- An upload environment whose structure-creation response is unparseable. -/
def uploadEnvNoParse : UploadEnv := ⟨⟨200, none⟩, fun _ => 200, ⟨200, ⟨3⟩⟩, ⟨200, ⟨9⟩⟩⟩

/-- An upload environment whose structure-creation response parses but has
no `uploadId` element. -/
def uploadEnvNoId : UploadEnv := ⟨⟨200, some []⟩, fun _ => 200, ⟨200, ⟨3⟩⟩, ⟨200, ⟨9⟩⟩⟩

/-- A one-page page-list entry: page number 1, transcript file `p1.xml`. -/
def pageOne : DocPage := ⟨1, ["p1.xml"]⟩

/-- Download environment: one manifest pointer, one page, transcripts OK. -/
def dlEnvEq : DownloadEnv :=
  ⟨⟨200, some [⟨"URL", none, "orig"⟩]⟩, ⟨200, [pageOne]⟩, fun _ => ⟨200, some "TXT"⟩⟩

/-- Download environment: two manifest pointers but only one page. -/
def dlEnvOver : DownloadEnv :=
  ⟨⟨200, some [⟨"URL", none, "o1"⟩, ⟨"URL", none, "o2"⟩]⟩, ⟨200, [pageOne]⟩,
   fun _ => ⟨200, some "TXT"⟩⟩

/-- Download environment: no manifest pointer but one page. -/
def dlEnvUnder : DownloadEnv :=
  ⟨⟨200, some []⟩, ⟨200, [pageOne]⟩, fun _ => ⟨200, some "TXT"⟩⟩

/-- Download environment for the spec's example scenario: one pointer with a
placeholder href, page list `[{pageNr 1, transcripts [p1.xml]}]`. -/
def dlEnvScenario : DownloadEnv :=
  ⟨⟨200, some [⟨"URL", none, "placeholder"⟩]⟩, ⟨200, [pageOne]⟩,
   fun _ => ⟨200, some "TXT"⟩⟩

/-- Download environment with two pages of distinct page numbers, for the
trace of transcript fetches. -/
def dlEnvTwoPages : DownloadEnv :=
  ⟨⟨200, some [⟨"URL", none, "o1"⟩, ⟨"URL", none, "o2"⟩]⟩,
   ⟨200, [⟨4, ["p4.xml"]⟩, ⟨6, ["p6.xml"]⟩]⟩, fun _ => ⟨200, some "TXT"⟩⟩

/-!  Theorems. -/

/-- On an expired session, `refresh` (unforced) and `get_auth_header` call
each other forever without changing any state, so no amount of fuel lets
either return: the Python code exhausts the recursion limit. -/
theorem refresh_expired_diverges (fuel : Nat) (env : RefreshEnv) (now : Nat)
    (s : SessionId) (h : is_expired now s = true) :
    refresh fuel env now false s = .error .recursionLimit ∧
      get_auth_header fuel env now s = .error .recursionLimit := by
  induction fuel with
  | zero => exact ⟨rfl, rfl⟩
  | succ n ih =>
    constructor
    · simp only [refresh, h, Bool.false_or, if_true, ih.2]
    · simp only [get_auth_header, ih.1]

/-- C1: the claim says a `get_auth_header()` call on an expired session
triggers exactly one refresh and returns the post-refresh token.  The code
instead recurses without bound (`get_auth_header` calls `refresh`, which
builds the refresh request's headers by calling `get_auth_header` again
while the session is still expired), so on the expired session
`{token "stale", expires 50}` observed at time 100 the call never returns,
whatever the recursion budget: it hits the interpreter recursion limit
without issuing any refresh request. -/
theorem c1_get_auth_header_expired_diverges :
    ∀ (fuel : Nat) (env : RefreshEnv),
      get_auth_header fuel env 100 { session_id := "stale", expires := 50 } =
        .error .recursionLimit :=
  fun fuel env =>
    (refresh_expired_diverges fuel env 100 { session_id := "stale", expires := 50 } rfl).2

/-- C5: on a 2xx login response that parses with a `sessionId` element, the
session's expiry is exactly 12 hours after the login time and its token is
the first `sessionId` text; on a non-2xx response, or a 2xx response whose
body does not parse, `login` raises instead of producing a session. -/
theorem c5_login_expiry_and_failure (u p : String) (env : LoginEnv) (now : Nat) :
    (∀ sid rest, ok2xx env.status = true → env.parsed = some (sid :: rest) →
      login u p env now = .ok { session_id := sid, expires := now + twelveHours }) ∧
    (ok2xx env.status = false →
      login u p env now = .error (.httpError env.status)) ∧
    (ok2xx env.status = true → env.parsed = none →
      login u p env now = .error .parseError) := by
  refine ⟨fun sid rest h1 h2 => ?_, fun h1 => ?_, fun h1 h2 => ?_⟩ <;>
    simp [login, h1]
  · simp [h2]
  · simp [h2]

/-- Witness for C5 at concrete responses. -/
theorem c5_login_witness :
    login "u" "p" ⟨200, some ["sid1"]⟩ 10 =
        .ok { session_id := "sid1", expires := 10 + twelveHours } ∧
    login "u" "p" ⟨401, some ["sid1"]⟩ 10 = .error (.httpError 401) ∧
    login "u" "p" ⟨200, none⟩ 10 = .error .parseError :=
  ⟨(c5_login_expiry_and_failure "u" "p" ⟨200, some ["sid1"]⟩ 10).1 "sid1" [] rfl rfl,
   (c5_login_expiry_and_failure "u" "p" ⟨401, some ["sid1"]⟩ 10).2.1 rfl,
   (c5_login_expiry_and_failure "u" "p" ⟨200, none⟩ 10).2.2 rfl rfl⟩

/-- C6: every successful `logout` leaves an empty token and an expiry equal
to the logout time, so `is_expired` holds at every instant strictly after
the logout time (`is_expired` is a strict comparison). -/
theorem c6_logout_clears_session (fuel : Nat) (renv : RefreshEnv)
    (status logoutTime now : Nat) (s s2 : SessionId) (b : Bool)
    (h : logout fuel renv status logoutTime now s = .ok (b, s2)) :
    s2.session_id = "" ∧ s2.expires = logoutTime ∧
      ∀ t, logoutTime < t → is_expired t s2 = true := by
  unfold logout at h
  cases hg : get_auth_header fuel renv now s with
  | error e => rw [hg] at h; cases h
  | ok v =>
    rw [hg] at h
    by_cases hs : ok2xx status = true
    · simp only [hs, if_true] at h
      cases h
      refine ⟨rfl, rfl, fun t ht => ?_⟩
      simpa [is_expired] using ht
    · simp only [Bool.not_eq_true] at hs
      simp only [hs, Bool.false_eq_true, if_false] at h
      cases h

/-- Witness for C6: a concrete successful logout at time 10 (session not
expired), logout-time 77. -/
theorem c6_logout_witness :
    logout 2 ⟨200, some ["x"], 0⟩ 200 77 10 { session_id := "tok", expires := 50 } =
        .ok (true, { session_id := "", expires := 77 }) ∧
    (SessionId.mk "" 77).session_id = "" ∧ (SessionId.mk "" 77).expires = 77 ∧
      is_expired 78 { session_id := "", expires := 77 } = true := by
  have h : logout 2 ⟨200, some ["x"], 0⟩ 200 77 10
      { session_id := "tok", expires := 50 } =
      .ok (true, { session_id := "", expires := 77 }) := rfl
  exact ⟨h, (c6_logout_clears_session 2 _ 200 77 10 _ _ _ h).1,
    (c6_logout_clears_session 2 _ 200 77 10 _ _ _ h).2.1,
    (c6_logout_clears_session 2 _ 200 77 10 _ _ _ h).2.2 78 (by decide)⟩

/-- C7: an `UploadPage` built without explicit checksums hashes the
referenced files (image always, transcript when present); one built with
explicit checksums stores them as given, and its value does not depend on
the hash function or the filesystem at all — no hash is computed. -/
theorem c7_upload_page_checksums (md5 : List Nat → String)
    (fs : Path → List Nat) (image : Path) (page_xml : Option Path)
    (page_nr : Int) :
    ((UploadPage.init md5 fs image page_xml page_nr none none).image_md5 =
        md5 (fs image) ∧
      (UploadPage.init md5 fs image page_xml page_nr none none).page_xml_md5 =
        page_xml.map (fun q => md5 (fs q))) ∧
    ∀ (cimg cxml : String) (md5b : List Nat → String) (fsb : Path → List Nat),
      UploadPage.init md5 fs image page_xml page_nr (some cimg) (some cxml) =
        UploadPage.init md5b fsb image page_xml page_nr (some cimg) (some cxml) ∧
      (UploadPage.init md5 fs image page_xml page_nr (some cimg)
          (some cxml)).image_md5 = cimg ∧
      (UploadPage.init md5 fs image page_xml page_nr (some cimg)
          (some cxml)).page_xml_md5 = some cxml := by
  refine ⟨⟨rfl, ?_⟩, fun cimg cxml md5b fsb => ⟨rfl, rfl, rfl⟩⟩
  cases page_xml <;> rfl

/-- C8 counterexample: with title `"T"` and metadata `{"title": "X"}`, the
payload's metadata map carries `"X"`, not the title argument — Python's
`{"title": title} | metadata` lets metadata override the reserved key. -/
theorem c8_counterexample_metadata_overrides_title :
    (uploadPayload "T" [("title", "X")] []).md = [("title", "X")] ∧
      ("X" : String) ≠ "T" := by
  exact ⟨rfl, by decide⟩

/-- C8 (amended): when the metadata map does not itself bind `"title"`, the
payload's `"title"` entry is the title argument; and the page list carries,
for each page in order, its file name, optional transcript file name, page
number, and both checksums. -/
theorem c8_payload_title_and_pages (title : String)
    (metadata : List (String × String)) (pages : List UploadPage)
    (h : metadata.lookup "title" = none) :
    (uploadPayload title metadata pages).md.lookup "title" = some title ∧
    (uploadPayload title metadata pages).pages.map PageEntry.fileName =
      pages.map (fun q => q.image.name) ∧
    (uploadPayload title metadata pages).pages.map PageEntry.pageXmlName =
      pages.map (fun q => q.page_xml.map Path.name) ∧
    (uploadPayload title metadata pages).pages.map PageEntry.pageNr =
      pages.map UploadPage.page_nr ∧
    (uploadPayload title metadata pages).pages.map PageEntry.imgChecksum =
      pages.map UploadPage.image_md5 ∧
    (uploadPayload title metadata pages).pages.map PageEntry.pageXmlChecksum =
      pages.map UploadPage.page_xml_md5 := by
  refine ⟨?_, ?_, ?_, ?_, ?_, ?_⟩
  · simp [uploadPayload, dictMerge, h, List.lookup]
  all_goals simp [uploadPayload, List.map_map, Function.comp]

/-- Witness for C8 (amended) at metadata `{"a": "b"}` (no `"title"` key). -/
theorem c8_payload_witness :
    (uploadPayload "T" [("a", "b")] []).md.lookup "title" = some "T" :=
  (c8_payload_title_and_pages "T" [("a", "b")] [] rfl).1

/-- C9: a 2xx structure-creation response that cannot be parsed, or that
parses but has no `uploadId` element, makes `upload_document` raise after
the single creation call: no page is pushed and no id is returned. -/
theorem c9_create_response_failure (env : UploadEnv) (cid : Int)
    (title : String) (pages : List UploadPage)
    (metadata : List (String × String))
    (hs : ok2xx env.createResp.status = true) :
    (env.createResp.content = none →
      upload_document env cid title pages metadata =
        ([Call.createUploadDocStructure cid (uploadPayload title metadata pages)],
          .error .parseError)) ∧
    (env.createResp.content = some [] →
      upload_document env cid title pages metadata =
        ([Call.createUploadDocStructure cid (uploadPayload title metadata pages)],
          .error .indexError)) := by
  constructor <;> intro h <;> simp [upload_document, hs, h]

/-- Witness for C9 at the two concrete failing environments. -/
theorem c9_create_response_failure_witness :
    upload_document uploadEnvNoParse 1 "t" [] [] =
      ([Call.createUploadDocStructure 1 (uploadPayload "t" [] [])],
        .error .parseError) ∧
    upload_document uploadEnvNoId 1 "t" [] [] =
      ([Call.createUploadDocStructure 1 (uploadPayload "t" [] [])],
        .error .indexError) :=
  ⟨(c9_create_response_failure uploadEnvNoParse 1 "t" [] [] rfl).1 rfl,
   (c9_create_response_failure uploadEnvNoId 1 "t" [] [] rfl).2 rfl⟩

/-- With every push status 2xx, the page-push loop PUTs one part set per
page, in list order, and succeeds. -/
theorem pushPages_all_ok (pushStatus : Nat → Nat) (uploadId : Int)
    (pages : List UploadPage) (i : Nat)
    (h : ∀ j, ok2xx (pushStatus j) = true) :
    pushPages pushStatus uploadId pages i =
      (pages.map (fun q =>
        Call.uploadPage uploadId q.image.name (q.page_xml.map Path.name)),
       .ok ()) := by
  induction pages generalizing i with
  | nil => rfl
  | cons q rest ih => simp [pushPages, h i, ih (i + 1)]

/-- C2 counterexample: with pages supplied in the order `[pgB, pgA, pgC]`
(page numbers 2, 1, 3), the pushes follow the caller-supplied order, not
page-number order: `b.jpg` (page 2) is pushed before `a.jpg` (page 1). -/
theorem c2_counterexample_push_order :
    (upload_document uploadEnvOk 5 "T" [pgB, pgA, pgC] []).1 =
      [Call.createUploadDocStructure 5 (uploadPayload "T" [] [pgB, pgA, pgC]),
       Call.uploadPage 8 "b.jpg" none, Call.uploadPage 8 "a.jpg" none,
       Call.uploadPage 8 "c.jpg" none, Call.getStatus 8, Call.getJobById 3] ∧
    pgB.page_nr = 2 ∧ pgA.page_nr = 1 ∧ pgC.page_nr = 3 ∧
    (upload_document uploadEnvOk 5 "T" [pgB, pgA, pgC] []).1 ≠
      [Call.createUploadDocStructure 5 (uploadPayload "T" [] [pgB, pgA, pgC]),
       Call.uploadPage 8 "a.jpg" none, Call.uploadPage 8 "b.jpg" none,
       Call.uploadPage 8 "c.jpg" none, Call.getStatus 8, Call.getJobById 3] := by
  refine ⟨?_, rfl, rfl, rfl, ?_⟩ <;> decide

/-- C2 (amended): on an all-successful run with three pages,
`upload_document` issues exactly one structure-creation call, then the three
page pushes in the caller-supplied list order, then one upload-status call
and one job lookup, and returns the `docId` of the job-lookup response. -/
theorem c2_upload_call_sequence (env : UploadEnv) (cid : Int) (title : String)
    (q1 q2 q3 : UploadPage) (metadata : List (String × String)) (t : String)
    (rest : List String) (uid : Int)
    (h1 : ok2xx env.createResp.status = true)
    (h2 : env.createResp.content = some (t :: rest))
    (h3 : strToInt? t = some uid)
    (h4 : ∀ j, ok2xx (env.pushStatus j) = true)
    (h5 : ok2xx env.statusResp.status = true)
    (h6 : ok2xx env.jobResp.status = true) :
    upload_document env cid title [q1, q2, q3] metadata =
      ([Call.createUploadDocStructure cid (uploadPayload title metadata [q1, q2, q3]),
        Call.uploadPage uid q1.image.name (q1.page_xml.map Path.name),
        Call.uploadPage uid q2.image.name (q2.page_xml.map Path.name),
        Call.uploadPage uid q3.image.name (q3.page_xml.map Path.name),
        Call.getStatus uid, Call.getJobById env.statusResp.content.jobId],
       .ok env.jobResp.content.docId) := by
  simp [upload_document, h1, h2, h3, h5, h6,
    pushPages_all_ok env.pushStatus uid [q1, q2, q3] 0 h4]

/-- Witness for C2 (amended) at the concrete all-successful environment. -/
theorem c2_upload_call_sequence_witness :
    upload_document uploadEnvOk 5 "T" [pgA, pgB, pgC] [] =
      ([Call.createUploadDocStructure 5 (uploadPayload "T" [] [pgA, pgB, pgC]),
        Call.uploadPage 8 "a.jpg" none, Call.uploadPage 8 "b.jpg" none,
        Call.uploadPage 8 "c.jpg" none, Call.getStatus 8, Call.getJobById 3],
       .ok 9) := by
  have h := c2_upload_call_sequence uploadEnvOk 5 "T" pgA pgB pgC [] "8" [] 8
    rfl rfl rfl (fun j => rfl) rfl rfl
  simpa [pgA, pgB, pgC, Path.name] using h

/-- When there are at most as many pointers as pages and every page reports
a transcript, the rewrite loop succeeds and maps the `i`-th pointer to an
`OTHER`/`FILE` pointer whose href is the `i`-th page's first transcript. -/
theorem rewritePointers_ok (pointers : List FLocat) (pages : List DocPage)
    (hlen : pointers.length ≤ pages.length)
    (ht : ∀ pg ∈ pages, pg.transcripts ≠ []) :
    rewritePointers pointers pages =
      .ok ((pages.take pointers.length).map
        (fun pg => ⟨"OTHER", some "FILE", pg.transcripts.headD ""⟩)) := by
  induction pointers generalizing pages with
  | nil => simp [rewritePointers]
  | cons e ps ih =>
    cases pages with
    | nil => simp at hlen
    | cons pg pgs =>
      have hpg : pg.transcripts ≠ [] := ht pg (by simp)
      cases htr : pg.transcripts with
      | nil => exact absurd htr hpg
      | cons fn tl =>
        have hrec := ih pgs (by simpa using hlen)
          (fun q hq => ht q (List.mem_cons_of_mem pg hq))
        simp [rewritePointers, htr, hrec]

/-- When there are more pointers than pages, the rewrite loop hits
`pages[i]` out of range and raises `IndexError` (before any file is
written). -/
theorem rewritePointers_overflow (pointers : List FLocat)
    (pages : List DocPage) (hlen : pages.length < pointers.length)
    (ht : ∀ pg ∈ pages, pg.transcripts ≠ []) :
    rewritePointers pointers pages = .error .indexError := by
  induction pointers generalizing pages with
  | nil => simp at hlen
  | cons e ps ih =>
    cases pages with
    | nil => rfl
    | cons pg pgs =>
      have hpg : pg.transcripts ≠ [] := ht pg (by simp)
      cases htr : pg.transcripts with
      | nil => exact absurd htr hpg
      | cons fn tl =>
        have hrec := ih pgs (by simpa using hlen)
          (fun q hq => ht q (List.mem_cons_of_mem pg hq))
        simp [rewritePointers, htr, hrec]

/-- When every transcript fetch is 2xx and parses, and every page reports a
transcript file name, the per-page loop fetches each page by its `pageNr`,
writes one file per page under the page's first transcript name, and
succeeds. -/
theorem fetchPages_all_ok (env : DownloadEnv) (cid did : Int)
    (pages : List DocPage)
    (hok : ∀ pg ∈ pages, ok2xx (env.transcriptResp pg.pageNr).status = true)
    (hc : ∀ pg ∈ pages, (env.transcriptResp pg.pageNr).content ≠ none)
    (ht : ∀ pg ∈ pages, pg.transcripts ≠ []) :
    fetchPages env cid did pages =
      (pages.map (fun pg => Call.getTranscript cid did pg.pageNr),
       pages.map (fun pg => (pg.transcripts.headD "",
         FileContent.transcriptFile
           ((env.transcriptResp pg.pageNr).content.getD ""))),
       .ok ()) := by
  induction pages with
  | nil => rfl
  | cons pg rest ih =>
    have h1 := hok pg (by simp)
    have h2 := hc pg (by simp)
    have h3 := ht pg (by simp)
    cases hcc : (env.transcriptResp pg.pageNr).content with
    | none => exact absurd hcc h2
    | some xml =>
      cases htr : pg.transcripts with
      | nil => exact absurd htr h3
      | cons fn tl =>
        have hrec := ih (fun q hq => hok q (List.mem_cons_of_mem pg hq))
          (fun q hq => hc q (List.mem_cons_of_mem pg hq))
          (fun q hq => ht q (List.mem_cons_of_mem pg hq))
        simp [fetchPages, h1, hcc, htr, hrec]

/-- C3 counterexample: with zero manifest pointers and a one-entry page
list (counts differ), `download_document` raises nothing and writes two
files (`mets.xml` and the transcript), contradicting the claimed
`DownloadError`-with-zero-files behaviour. -/
theorem c3_counterexample_mismatch_no_error :
    download_document dlEnvUnder 7 42 =
      ([Call.getMets 7 42, Call.getPages 7 42, Call.getTranscript 7 42 1],
       [("mets.xml", .metsFile []), ("p1.xml", .transcriptFile "TXT")],
       .ok ()) ∧
    (dlEnvUnder.metsResp.content.getD []).length ≠
      dlEnvUnder.pagesResp.content.length := by
  exact ⟨rfl, by decide⟩

/-- C3 (amended): on a run whose individual requests all succeed and whose
pages each report a transcript, `download_document` writes exactly `N + 1`
files when the pointer count equals the page-list count `N`; when the
pointer count exceeds the page-list count it raises `IndexError` (the
spec's `DownloadError`) having written zero files.  (When the pointer count
is smaller, the counterexample shows the call succeeds and still writes
`N + 1` files.) -/
theorem c3_download_file_counts (env : DownloadEnv) (cid did : Int)
    (pointers : List FLocat)
    (h1 : ok2xx env.metsResp.status = true)
    (h2 : env.metsResp.content = some pointers)
    (h3 : ok2xx env.pagesResp.status = true)
    (ht : ∀ pg ∈ env.pagesResp.content, pg.transcripts ≠ [])
    (hok : ∀ pg ∈ env.pagesResp.content,
      ok2xx (env.transcriptResp pg.pageNr).status = true)
    (hc : ∀ pg ∈ env.pagesResp.content,
      (env.transcriptResp pg.pageNr).content ≠ none) :
    (pointers.length = env.pagesResp.content.length →
      (download_document env cid did).2.2 = .ok () ∧
      (download_document env cid did).2.1.length =
        env.pagesResp.content.length + 1) ∧
    (env.pagesResp.content.length < pointers.length →
      (download_document env cid did).2.2 = .error .indexError ∧
      (download_document env cid did).2.1 = []) := by
  constructor
  · intro hlen
    have hrw := rewritePointers_ok pointers env.pagesResp.content hlen.le ht
    have hf := fetchPages_all_ok env cid did env.pagesResp.content hok hc ht
    simp [download_document, h1, h2, h3, hrw, hf]
  · intro hlen
    have hrw := rewritePointers_overflow pointers env.pagesResp.content hlen ht
    simp [download_document, h1, h2, h3, hrw]

/-- Witness for C3 (amended): equal counts write 2 files for 1 page; two
pointers against one page raise `IndexError` with no file written. -/
theorem c3_download_file_counts_witness :
    ((download_document dlEnvEq 7 42).2.2 = .ok () ∧
      (download_document dlEnvEq 7 42).2.1.length = 1 + 1) ∧
    ((download_document dlEnvOver 7 42).2.2 = .error .indexError ∧
      (download_document dlEnvOver 7 42).2.1 = []) :=
  ⟨(c3_download_file_counts dlEnvEq 7 42 [⟨"URL", none, "orig"⟩]
      rfl rfl rfl (by decide) (by decide) (by decide)).1 rfl,
   (c3_download_file_counts dlEnvOver 7 42
      [⟨"URL", none, "o1"⟩, ⟨"URL", none, "o2"⟩]
      rfl rfl rfl (by decide) (by decide) (by decide)).2 (by decide)⟩

/-- C4: every pointer of the `PAGEXML` file group is rewritten, in order,
to `LOCTYPE="OTHER"`, `OTHERLOCTYPE="FILE"` and the first transcript file
name of the positionally corresponding page entry, and the rewritten
pointer list is what the written `mets.xml` carries; in the spec's one-page
scenario (collection 7, document 42, transcript `p1.xml`) the written
`mets.xml` holds the href `p1.xml` and `p1.xml` is written with the fetched
transcript content. -/
theorem c4_pointer_rewrite (env : DownloadEnv) (cid did : Int)
    (pointers : List FLocat)
    (h1 : ok2xx env.metsResp.status = true)
    (h2 : env.metsResp.content = some pointers)
    (h3 : ok2xx env.pagesResp.status = true)
    (hlen : pointers.length ≤ env.pagesResp.content.length)
    (ht : ∀ pg ∈ env.pagesResp.content, pg.transcripts ≠ []) :
    (download_document env cid did).2.1.head? =
      some ("mets.xml", FileContent.metsFile
        ((env.pagesResp.content.take pointers.length).map
          (fun pg => ⟨"OTHER", some "FILE", pg.transcripts.headD ""⟩))) ∧
    download_document dlEnvScenario 7 42 =
      ([Call.getMets 7 42, Call.getPages 7 42, Call.getTranscript 7 42 1],
       [("mets.xml", .metsFile [⟨"OTHER", some "FILE", "p1.xml"⟩]),
        ("p1.xml", .transcriptFile "TXT")], .ok ()) := by
  constructor
  · have hrw := rewritePointers_ok pointers env.pagesResp.content hlen ht
    simp [download_document, h1, h2, h3, hrw]
  · rfl

/-- Witness for C4 at the scenario environment itself. -/
theorem c4_pointer_rewrite_witness :
    (download_document dlEnvScenario 7 42).2.1.head? =
      some ("mets.xml", FileContent.metsFile
        ((dlEnvScenario.pagesResp.content.take 1).map
          (fun pg => ⟨"OTHER", some "FILE", pg.transcripts.headD ""⟩))) :=
  (c4_pointer_rewrite dlEnvScenario 7 42 [⟨"URL", none, "placeholder"⟩]
    rfl rfl rfl (by decide) (by decide)).1

/-- C10: on a run whose requests succeed, the transcript of each page-list
entry is fetched with the entry's `pageNr` value standing in the `{pageId}`
path segment of `collections/{collectionId}/{documentId}/{pageId}/text`:
page number and page id are conflated. -/
theorem c10_transcript_fetched_by_page_nr (env : DownloadEnv) (cid did : Int)
    (pointers : List FLocat)
    (h1 : ok2xx env.metsResp.status = true)
    (h2 : env.metsResp.content = some pointers)
    (h3 : ok2xx env.pagesResp.status = true)
    (hlen : pointers.length ≤ env.pagesResp.content.length)
    (ht : ∀ pg ∈ env.pagesResp.content, pg.transcripts ≠ [])
    (hok : ∀ pg ∈ env.pagesResp.content,
      ok2xx (env.transcriptResp pg.pageNr).status = true)
    (hc : ∀ pg ∈ env.pagesResp.content,
      (env.transcriptResp pg.pageNr).content ≠ none) :
    (download_document env cid did).1 =
      [Call.getMets cid did, Call.getPages cid did] ++
        env.pagesResp.content.map
          (fun pg => Call.getTranscript cid did pg.pageNr) := by
  have hrw := rewritePointers_ok pointers env.pagesResp.content hlen ht
  have hf := fetchPages_all_ok env cid did env.pagesResp.content hok hc ht
  simp [download_document, h1, h2, h3, hrw, hf]

/-- Witness for C10: two pages with page numbers 4 and 6 are fetched as
`{pageId}` 4 and 6. -/
theorem c10_transcript_fetched_by_page_nr_witness :
    (download_document dlEnvTwoPages 7 42).1 =
      [Call.getMets 7 42, Call.getPages 7 42] ++
        dlEnvTwoPages.pagesResp.content.map
          (fun pg => Call.getTranscript 7 42 pg.pageNr) :=
  c10_transcript_fetched_by_page_nr dlEnvTwoPages 7 42
    [⟨"URL", none, "o1"⟩, ⟨"URL", none, "o2"⟩]
    rfl rfl rfl (by decide) (by decide) (by decide) (by decide)

end Transkribus
